import Mathlib

/-!
Verification of the lazy namespace extension resolver
(`my_framework/__init__.py`).

The Python module defines a mapping `_EXTENSION_MAP` from virtual
attribute names to module identifiers and a PEP 562 module-level
`__getattr__` hook.  Accessing a mapped attribute prints a diagnostic
trace, calls `importlib.import_module` on the mapped identifier and
returns the loaded module; an `ImportError` from the load is wrapped in
a new `ImportError` whose message names both the attribute and the
identifier, with the original failure attached as cause; any other name
raises `AttributeError`.

The embedding models the host import machinery explicitly: a loader
state carries the loaded-module registry (`sys.modules`), a counter
supplying fresh module identities and the log of module-body
initializations.  The environment `env : String → LoadSpec` says, for
each module identifier, whether its load succeeds, fails with an
import-time error, or fails with a non-import error raised while the
module body runs.  Observable effects (the diagnostic print and each
invocation of the loading facility) are recorded as an event list.
-/

/-- A loaded module handle: its identifier plus an identity token so the
claims about "the same instance" are expressible. -/
structure PyModule where
  identifier : String
  instanceId : Nat
deriving DecidableEq, Repr

/-- Python exceptions relevant to the resolver: `ImportError` (with an
optional `__cause__` chain), `AttributeError`, and any other exception a
module body may raise during initialization. -/
inductive PyError where
  | importError : String → Option PyError → PyError
  | attributeError : String → PyError
  | otherError : String → PyError
deriving Repr

/-- Models `except ImportError`: which exceptions an import-error
handler catches. -/
def catchesImportError : PyError → Bool
  | PyError.importError _ _ => true
  | _ => false

/-- Models `except AttributeError`: which exceptions an attribute-error
handler catches. -/
def catchesAttributeError : PyError → Bool
  | PyError.attributeError _ => true
  | _ => false

/-- Observable events: a printed diagnostic line, and an invocation of
the module-loading facility with a module identifier. -/
inductive Event where
  | print : String → Event
  | importCall : String → Event
deriving DecidableEq, Repr

/-- How the environment behaves when a given module identifier is
loaded for the first time: the load succeeds, the module cannot be
located (an import-time failure), or the module body raises a
non-import error while initializing. -/
inductive LoadSpec where
  | ok : LoadSpec
  | importFail : String → LoadSpec
  | initFail : String → LoadSpec
deriving DecidableEq, Repr

/-- The host loader state: `registry` is `sys.modules`, `nextId`
supplies fresh module identities, `inits` logs every execution of a
module body (one entry per initialization, in order). -/
structure LoaderState where
  registry : List (String × PyModule)
  nextId : Nat
  inits : List String
deriving DecidableEq, Repr

/-- The process state visible to the resolver: the module-global
`_EXTENSION_MAP` object and the host loader state. -/
structure ProcState where
  emap : List (String × String)
  loader : LoaderState
deriving DecidableEq, Repr

/-- The map `_EXTENSION_MAP = \x7b "ext": "my_framework_ext" \x7d` from
the source. -/
def _EXTENSION_MAP : List (String × String) :=
  [("ext", "my_framework_ext")]

/-- The call `importlib.import_module`, with the memoization the host loader
provides: a registered identifier is returned as-is with no state
change; otherwise the environment decides the outcome.  A successful
first load registers a fresh module instance and logs one execution of
its body; a failed load leaves the state untouched.  Every call is
recorded as an `importCall` event. -/
def import_module (env : String → LoadSpec) (pkg : String)
    (st : LoaderState) :
    Except PyError PyModule × List Event × LoaderState :=
  match st.registry.lookup pkg with
  | some m => (Except.ok m, [Event.importCall pkg], st)
  | none =>
    match env pkg with
    | LoadSpec.ok =>
        let m : PyModule := ⟨pkg, st.nextId⟩
        (Except.ok m, [Event.importCall pkg],
          ⟨(pkg, m) :: st.registry, st.nextId + 1, st.inits ++ [pkg]⟩)
    | LoadSpec.importFail msg =>
        (Except.error (PyError.importError msg none), [Event.importCall pkg], st)
    | LoadSpec.initFail msg =>
        (Except.error (PyError.otherError msg), [Event.importCall pkg], st)

/-- The diagnostic line printed before the load:
`f"... Lazily importing \x7bpackage_name\x7d for namespace \x7bname\x7d ..."`
(quotes written as \x27 escapes). -/
def traceMsg (package_name name : String) : String :=
  "... Lazily importing \x27" ++ package_name ++
  "\x27 for namespace \x27" ++ name ++ "\x27 ..."

/-- The wrapped-error message from the source:
`f"Missing extension! To use my_framework.\x7bname\x7d, please install \x7bpackage_name\x7d."`. -/
def missingExtMsg (name package_name : String) : String :=
  "Missing extension! To use \x27my_framework." ++ name ++
  "\x27, please install \x27" ++ package_name ++ "\x27."

/-- The `AttributeError` message from the source:
`f"module \x7b__name__!r\x7d has no attribute \x7bname!r\x7d"`. -/
def noAttributeMsg (name : String) : String :=
  "module \x27my_framework\x27 has no attribute \x27" ++ name ++ "\x27"

/-- The PEP 562 module `__getattr__` of `my_framework`, translated line
by line: membership test in the map, the diagnostic print, the call to
`import_module`, the return of the loaded module, the `except
ImportError` clause wrapping the failure with the cause chained, and
the final `AttributeError` for unmapped names.  Returns the outcome,
the emitted events in order, and the updated process state. -/
def __getattr__ (env : String → LoadSpec) (name : String)
    (st : ProcState) :
    Except PyError PyModule × List Event × ProcState :=
  match st.emap.lookup name with
  | some package_name =>
      let r := import_module env package_name st.loader
      let events := Event.print (traceMsg package_name name) :: r.2.1
      let st' : ProcState := ⟨st.emap, r.2.2⟩
      match r.1 with
      | Except.ok m => (Except.ok m, events, st')
      | Except.error e =>
          match e with
          | PyError.importError _ _ =>
              (Except.error
                 (PyError.importError (missingExtMsg name package_name) (some e)),
               events, st')
          | _ => (Except.error e, events, st')
  | none =>
      (Except.error (PyError.attributeError (noAttributeMsg name)), [], st)

/-- The `if False:` guard on the IDE-hint block
`from my_framework_ext import *` in the source. -/
def TYPE_CHECKING_GUARD : Bool := false

/-- Initializing the root namespace `my_framework` alone: the module
body builds `_EXTENSION_MAP`, defines `__getattr__`, and contains the
statically-guarded hint import, which runs only if the guard is true. -/
def rootInit (env : String → LoadSpec) (st : LoaderState) :
    List (String × String) × LoaderState × List Event :=
  if TYPE_CHECKING_GUARD then
    let r := import_module env "my_framework_ext" st
    (_EXTENSION_MAP, r.2.2, r.2.1)
  else
    (_EXTENSION_MAP, st, [])

/-- Run a sequence of attribute resolutions, threading the process
state. -/
def runResolves (env : String → LoadSpec) (names : List String)
    (st : ProcState) : ProcState :=
  names.foldl (fun s n => (__getattr__ env n s).2.2) st

/-! Helper lemmas shared by the claim theorems. -/

/-- The loading facility emits exactly one `importCall` event per
invocation, on every path. -/
theorem import_module_events (env : String → LoadSpec) (pkg : String)
    (st : LoaderState) :
    (import_module env pkg st).2.1 = [Event.importCall pkg] := by
  unfold import_module
  rcases hx : st.registry.lookup pkg with _ | m
  · rcases hy : env pkg <;> simp [hx, hy]
  · simp [hx]

/-- For a mapped name, the resolver emits the trace in front of the
loader events and threads the loader state returned by
`import_module`, keeping the map unchanged. -/
theorem getattr_effects (env : String → LoadSpec)
    (name package_name : String) (st : ProcState)
    (hmap : st.emap.lookup name = some package_name) :
    (__getattr__ env name st).2.1 =
      Event.print (traceMsg package_name name) ::
        (import_module env package_name st.loader).2.1 ∧
    (__getattr__ env name st).2.2 =
      ⟨st.emap, (import_module env package_name st.loader).2.2⟩ := by
  unfold __getattr__
  rw [hmap]
  rcases h1 : (import_module env package_name st.loader).1 with e | m
  · cases e <;> simp [h1]
  · simp [h1]

/-- For a mapped name, the full event list of one resolution. -/
theorem getattr_events (env : String → LoadSpec)
    (name package_name : String) (st : ProcState)
    (hmap : st.emap.lookup name = some package_name) :
    (__getattr__ env name st).2.1 =
      [Event.print (traceMsg package_name name),
       Event.importCall package_name] := by
  rw [(getattr_effects env name package_name st hmap).1,
    import_module_events]

/-- A resolution never changes the extension map. -/
theorem getattr_emap_eq (env : String → LoadSpec) (name : String)
    (st : ProcState) :
    ((__getattr__ env name st).2.2).emap = st.emap := by
  rcases hmap : st.emap.lookup name with _ | package_name
  · simp [__getattr__, hmap]
  · rw [(getattr_effects env name package_name st hmap).2]

/-! Concrete environments and states used by the witnesses. -/

/-- An environment in which every module loads successfully. -/
def envOk : String → LoadSpec := fun _ => LoadSpec.ok

/-- An environment in which no module can be located: every load fails
with an import-time error. -/
def envMissing : String → LoadSpec :=
  fun _ => LoadSpec.importFail "No module named my_framework_ext"

/-- An environment in which every module body raises a non-import
error while initializing. -/
def envBroken : String → LoadSpec :=
  fun _ => LoadSpec.initFail "division by zero"

/-- The initial process state: the map from the source, an empty
loaded-module registry, no initializations yet. -/
def st0 : ProcState := ⟨_EXTENSION_MAP, ⟨[], 0, []⟩⟩

/-- The state after one successful resolution of `"ext"` from `st0`. -/
def st1 : ProcState := (__getattr__ envOk "ext" st0).2.2

/-- C1: for every name that is a key of the extension map, if loading
the mapped module identifier fails with an import error, `__getattr__`
raises an error of the import-failure kind (so an
`except ImportError` handler catches it, and an `except AttributeError`
handler does not), whose message contains both the virtual attribute
name and the mapped module identifier, and whose cause is the
underlying load failure, not discarded. -/
theorem c1_extension_missing_error (env : String → LoadSpec)
    (name package_name msg : String) (st : ProcState)
    (hmap : st.emap.lookup name = some package_name)
    (hreg : st.loader.registry.lookup package_name = none)
    (henv : env package_name = LoadSpec.importFail msg) :
    ∃ emsg,
      (__getattr__ env name st).1 =
        Except.error (PyError.importError emsg
          (some (PyError.importError msg none))) ∧
      catchesImportError
        (PyError.importError emsg (some (PyError.importError msg none)))
        = true ∧
      catchesAttributeError
        (PyError.importError emsg (some (PyError.importError msg none)))
        = false ∧
      ∃ a b c, emsg = a ++ name ++ b ++ package_name ++ c := by
  refine ⟨missingExtMsg name package_name, ?_, rfl, rfl, ?_⟩
  · simp [__getattr__, import_module, hmap, hreg, henv]
  · refine ⟨"Missing extension! To use \x27my_framework.",
      "\x27, please install \x27", "\x27.", ?_⟩
    simp [missingExtMsg, String.append_assoc]

/-- Witness for C1: the missing-extension failure at the initial state
with `name = "ext"`. -/
theorem c1_extension_missing_error_witness :
    ∃ emsg,
      (__getattr__ envMissing "ext" st0).1 =
        Except.error (PyError.importError emsg
          (some (PyError.importError
            "No module named my_framework_ext" none))) ∧
      catchesImportError
        (PyError.importError emsg (some (PyError.importError
          "No module named my_framework_ext" none))) = true ∧
      catchesAttributeError
        (PyError.importError emsg (some (PyError.importError
          "No module named my_framework_ext" none))) = false ∧
      ∃ a b c, emsg = a ++ "ext" ++ b ++ "my_framework_ext" ++ c :=
  c1_extension_missing_error envMissing "ext" "my_framework_ext"
    "No module named my_framework_ext" st0 (by decide) (by decide) rfl

/-- C2: for every name that is not a key of the extension map,
`__getattr__` raises `AttributeError` with the standard
missing-attribute message, and never invokes the module-loading
facility for any identifier: it emits no events at all. -/
theorem c2_unknown_attribute (env : String → LoadSpec) (name : String)
    (st : ProcState) (hmap : st.emap.lookup name = none) :
    (__getattr__ env name st).1 =
      Except.error (PyError.attributeError (noAttributeMsg name)) ∧
    (__getattr__ env name st).2.1 = [] ∧
    ∀ pkg, Event.importCall pkg ∉ (__getattr__ env name st).2.1 := by
  refine ⟨?_, ?_, ?_⟩ <;> simp [__getattr__, hmap]

/-- Witness for C2: accessing `"bogus"` at the initial state. -/
theorem c2_unknown_attribute_witness :
    (__getattr__ envOk "bogus" st0).1 =
      Except.error (PyError.attributeError (noAttributeMsg "bogus")) ∧
    (__getattr__ envOk "bogus" st0).2.1 = [] ∧
    ∀ pkg, Event.importCall pkg ∉ (__getattr__ envOk "bogus" st0).2.1 :=
  c2_unknown_attribute envOk "bogus" st0 (by decide)

/-- C3: for a mapped name whose module is loadable and not yet
registered, resolving twice returns the identical module handle both
times, and the module body runs exactly once across the two calls. -/
theorem c3_idempotent_resolution (env : String → LoadSpec)
    (name package_name : String) (st : ProcState)
    (hmap : st.emap.lookup name = some package_name)
    (henv : env package_name = LoadSpec.ok)
    (hreg : st.loader.registry.lookup package_name = none) :
    ∃ m : PyModule,
      (__getattr__ env name st).1 = Except.ok m ∧
      (__getattr__ env name (__getattr__ env name st).2.2).1 =
        Except.ok m ∧
      ((__getattr__ env name
          (__getattr__ env name st).2.2).2.2).loader.inits.count
            package_name
        = st.loader.inits.count package_name + 1 := by
  refine ⟨⟨package_name, st.loader.nextId⟩, ?_, ?_, ?_⟩ <;>
    simp [__getattr__, import_module, hmap, hreg, henv, List.lookup,
      List.count_append]

/-- Witness for C3: resolving `"ext"` twice from the initial state. -/
theorem c3_idempotent_resolution_witness :
    ∃ m : PyModule,
      (__getattr__ envOk "ext" st0).1 = Except.ok m ∧
      (__getattr__ envOk "ext" (__getattr__ envOk "ext" st0).2.2).1 =
        Except.ok m ∧
      ((__getattr__ envOk "ext"
          (__getattr__ envOk "ext" st0).2.2).2.2).loader.inits.count
            "my_framework_ext"
        = st0.loader.inits.count "my_framework_ext" + 1 :=
  c3_idempotent_resolution envOk "ext" "my_framework_ext" st0
    (by decide) rfl (by decide)

/-- C4: for a mapped name whose load succeeds, `__getattr__` returns
exactly the module produced by the loading facility, unwrapped and
unmodified. -/
theorem c4_returns_loaded_unit (env : String → LoadSpec)
    (name package_name : String) (st : ProcState) (m : PyModule)
    (evs : List Event) (loader' : LoaderState)
    (hmap : st.emap.lookup name = some package_name)
    (hload : import_module env package_name st.loader =
      (Except.ok m, evs, loader')) :
    (__getattr__ env name st).1 = Except.ok m := by
  simp [__getattr__, hmap, hload]

/-- Witness for C4: the first load of `"my_framework_ext"` from the
initial state. -/
theorem c4_returns_loaded_unit_witness :
    (__getattr__ envOk "ext" st0).1 =
      Except.ok ⟨"my_framework_ext", 0⟩ :=
  c4_returns_loaded_unit envOk "ext" "my_framework_ext" st0
    ⟨"my_framework_ext", 0⟩ [Event.importCall "my_framework_ext"]
    ⟨[("my_framework_ext", ⟨"my_framework_ext", 0⟩)], 1,
      ["my_framework_ext"]⟩ (by decide) rfl

/-- C5: initializing the root namespace alone performs no load and no
initialization: the loader state is returned unchanged and no event is
emitted, because the IDE-hint import sits under a statically false
guard. -/
theorem c5_no_eager_cost (env : String → LoadSpec) (st : LoaderState) :
    rootInit env st = (_EXTENSION_MAP, st, []) := by
  simp [rootInit, TYPE_CHECKING_GUARD]

/-- Witness for C5: root initialization from the initial loader
state. -/
theorem c5_no_eager_cost_witness :
    rootInit envOk st0.loader = (_EXTENSION_MAP, st0.loader, []) :=
  c5_no_eager_cost envOk st0.loader

/-- C6: for every mapped name, every call — first and repeat alike —
emits the trace exactly once, before the single invocation of the
loading facility; and when the target is already registered, the call
leaves the process state unchanged, so the module body does not run
again. -/
theorem c6_trace_every_call (env : String → LoadSpec)
    (name package_name : String) (st : ProcState)
    (hmap : st.emap.lookup name = some package_name) :
    (__getattr__ env name st).2.1 =
      [Event.print (traceMsg package_name name),
       Event.importCall package_name] ∧
    ∀ m, st.loader.registry.lookup package_name = some m →
      (__getattr__ env name st).2.2 = st := by
  refine ⟨getattr_events env name package_name st hmap, ?_⟩
  intro m hm
  rw [(getattr_effects env name package_name st hmap).2]
  unfold import_module
  rw [hm]

/-- Witness for C6: a repeat access, from the state reached after one
successful resolution of `"ext"`. -/
theorem c6_trace_every_call_witness :
    (__getattr__ envOk "ext" st1).2.1 =
      [Event.print (traceMsg "my_framework_ext" "ext"),
       Event.importCall "my_framework_ext"] ∧
    ∀ m, st1.loader.registry.lookup "my_framework_ext" = some m →
      (__getattr__ envOk "ext" st1).2.2 = st1 :=
  c6_trace_every_call envOk "ext" "my_framework_ext" st1 (by decide)

/-- C7: when resolution of a mapped name fails because the module
cannot be located, the process state — and with it the loaded-module
registry — is unchanged by the failing access. -/
theorem c7_failure_atomicity (env : String → LoadSpec)
    (name package_name msg : String) (st : ProcState)
    (hmap : st.emap.lookup name = some package_name)
    (hreg : st.loader.registry.lookup package_name = none)
    (henv : env package_name = LoadSpec.importFail msg) :
    (__getattr__ env name st).2.2 = st ∧
    ((__getattr__ env name st).2.2).loader.registry
      = st.loader.registry := by
  rw [(getattr_effects env name package_name st hmap).2]
  unfold import_module
  rw [hreg, henv]
  exact ⟨rfl, rfl⟩

/-- Witness for C7: the failing load of `"my_framework_ext"` at the
initial state. -/
theorem c7_failure_atomicity_witness :
    (__getattr__ envMissing "ext" st0).2.2 = st0 ∧
    ((__getattr__ envMissing "ext" st0).2.2).loader.registry
      = st0.loader.registry :=
  c7_failure_atomicity envMissing "ext" "my_framework_ext"
    "No module named my_framework_ext" st0 (by decide) (by decide) rfl

/-- C8: no resolver operation mutates the extension map: after any
sequence of resolutions from a state carrying the source's map, the
map still equals `[("ext", "my_framework_ext")]`. -/
theorem c8_map_immutable (env : String → LoadSpec)
    (names : List String) (st : ProcState)
    (h : st.emap = _EXTENSION_MAP) :
    (runResolves env names st).emap = [("ext", "my_framework_ext")] := by
  have key : ∀ (ns : List String) (s : ProcState),
      (runResolves env ns s).emap = s.emap := by
    intro ns
    induction ns with
    | nil => intro s; rfl
    | cons n ns ih =>
        intro s
        have hstep : runResolves env (n :: ns) s =
            runResolves env ns ((__getattr__ env n s).2.2) := rfl
        rw [hstep, ih, getattr_emap_eq]
  rw [key names st, h, _EXTENSION_MAP]

/-- Witness for C8: a mixed sequence of successful, unknown and failing
accesses from the initial state. -/
theorem c8_map_immutable_witness :
    (runResolves envOk ["ext", "bogus", "ext"] st0).emap
      = [("ext", "my_framework_ext")] :=
  c8_map_immutable envOk ["ext", "bogus", "ext"] st0 rfl

/-- C9: for a mapped name the trace is emitted on every call, whatever
the load outcome — in particular a call that ends in the
missing-extension error has emitted it — while for an unmapped name no
trace is emitted at all. -/
theorem c9_trace_before_load (env : String → LoadSpec) (name : String)
    (st : ProcState) :
    (∀ package_name, st.emap.lookup name = some package_name →
        Event.print (traceMsg package_name name)
          ∈ (__getattr__ env name st).2.1) ∧
    (st.emap.lookup name = none →
        ∀ s, Event.print s ∉ (__getattr__ env name st).2.1) := by
  constructor
  · intro package_name hmap
    rw [getattr_events env name package_name st hmap]
    simp
  · intro hmap s
    simp [__getattr__, hmap]

/-- Witness for C9: the trace of the failing access to `"ext"` at the
initial state under the environment where every load fails. -/
theorem c9_trace_before_load_witness :
    (∀ package_name, st0.emap.lookup "ext" = some package_name →
        Event.print (traceMsg package_name "ext")
          ∈ (__getattr__ envMissing "ext" st0).2.1) ∧
    (st0.emap.lookup "ext" = none →
        ∀ s, Event.print s ∉ (__getattr__ envMissing "ext" st0).2.1) :=
  c9_trace_before_load envMissing "ext" st0

/-- C10: only import-failure errors are translated: when the module
body of a mapped, unregistered target raises a non-import error, that
error propagates to the caller unchanged — not wrapped, and not of the
kind an `except ImportError` handler catches. -/
theorem c10_nonimport_error_propagates (env : String → LoadSpec)
    (name package_name msg : String) (st : ProcState)
    (hmap : st.emap.lookup name = some package_name)
    (hreg : st.loader.registry.lookup package_name = none)
    (henv : env package_name = LoadSpec.initFail msg) :
    (__getattr__ env name st).1 =
      Except.error (PyError.otherError msg) ∧
    catchesImportError (PyError.otherError msg) = false := by
  refine ⟨?_, rfl⟩
  simp [__getattr__, import_module, hmap, hreg, henv]

/-- Witness for C10: a module body that raises a non-import error, at
the initial state. -/
theorem c10_nonimport_error_propagates_witness :
    (__getattr__ envBroken "ext" st0).1 =
      Except.error (PyError.otherError "division by zero") ∧
    catchesImportError (PyError.otherError "division by zero") = false :=
  c10_nonimport_error_propagates envBroken "ext" "my_framework_ext"
    "division by zero" st0 (by decide) (by decide) rfl
